import Mathlib

set_option maxRecDepth 4000

/-
Verification of the KePub container transforms (`container.py`, `common.py`
of the calibre-kobo-driver repository) against their specification.

The Python source is shallowly embedded: lxml element trees become the
`XNode` inductive, the per-document paragraph counters (a `defaultdict`
keyed by document name) become a function `String → Nat`, regex-driven
text passes are hand-compiled to executable Lean functions implementing
the exact leftmost-match backtracking semantics of the concrete patterns,
and raised exceptions become `Except` error results.
-/

namespace Kepub

/-! ## Character classes used by the concrete regular expressions -/

/-- Characters matched by Python's `\s` (and stripped by `str.strip()`):
ASCII whitespace, the C0 separator block, and the Unicode spaces. -/
def isPythonSpace (c : Char) : Bool :=
  c = ' ' || c = '\t' || c = '\n' || c = '\r' || c = '\x0b' || c = '\x0c' ||
  c = '\x1c' || c = '\x1d' || c = '\x1e' || c = '\x1f' ||
  c = '\x85' || c = '\xa0' || c = ' ' ||
  (' ' ≤ c && c ≤ ' ') ||
  c = ' ' || c = ' ' || c = ' ' || c = ' ' || c = '　'

/-- Sentence-terminal punctuation class `[\.\!\?\:]` of `TEXT_SPLIT_RE`. -/
def isSentenceTerminal (c : Char) : Bool :=
  c = '.' || c = '!' || c = '?' || c = ':'

/-- Closing-quote class `['"“”‘’…]` of `TEXT_SPLIT_RE`. -/
def isClosingQuote (c : Char) : Bool :=
  c = '\'' || c = '"' || c = '“' || c = '”' ||
  c = '‘' || c = '’' || c = '…'

/-- Characters matched by Python's `\w` (ASCII range; the tag names fed to the
tag-classification regex are ASCII). -/
def isWordChar (c : Char) : Bool := c.isAlphanum || c = '_'

/-- Length of the maximal prefix of whitespace characters (a greedy `\s*`). -/
def wsRunLength : List Char → Nat
  | [] => 0
  | c :: cs => if isPythonSpace c then wsRunLength cs + 1 else 0

/-- Python's `str.strip()` on the character list. -/
def stripChars (cs : List Char) : List Char :=
  ((cs.dropWhile isPythonSpace).reverse.dropWhile isPythonSpace).reverse

/-- Python's `str.strip()`. -/
def pyStrip (s : String) : String := String.mk (stripChars s.toList)

/-! ## The sentence-splitting regular expression

`TEXT_SPLIT_RE = (\s*.*?[\.\!\?\:]['"“”‘’…]?\s*)`
compiled with `re.UNICODE | re.MULTILINE` (no DOTALL: `.` excludes `\n`).

Backtracking semantics, hand-compiled: at a match position the greedy
leading `\s*` takes the maximal whitespace run; the lazy `.*?` then scans
(never across a newline) for the first sentence-terminal character; if no
terminal is reachable before a newline or the end, no shorter whitespace
prefix can succeed either (the freed characters are whitespace, never a
terminal, and the same blocking newline remains), so the whole position
fails.  After the terminal, one optional closing quote and a greedy
trailing `\s*` are consumed. -/

/-- Index of the first sentence-terminal character reachable by the lazy
`.*?` (which cannot cross a newline); `none` when a newline or the end of
input comes first. -/
def findTerminalIdx : List Char → Option Nat
  | [] => none
  | c :: cs =>
    if isSentenceTerminal c then some 0
    else if c = '\n' then none
    else (findTerminalIdx cs).map (· + 1)

/-- Length of the `TEXT_SPLIT_RE` match starting exactly at the head of
`cs`, or `none` when the pattern does not match there. -/
def splitMatchLen (cs : List Char) : Option Nat :=
  let w := wsRunLength cs
  let rest := cs.drop w
  match findTerminalIdx rest with
  | none => none
  | some k =>
    let afterT := rest.drop (k + 1)
    let q := match afterT with
      | [] => 0
      | c :: _ => if isClosingQuote c then 1 else 0
    some (w + (k + 1) + q + wsRunLength (afterT.drop q))

/-- Leftmost match of `TEXT_SPLIT_RE`: start offset and length. -/
def findSplitMatch : List Char → Option (Nat × Nat)
  | [] => none
  | c :: cs =>
    match splitMatchLen (c :: cs) with
    | some len => some (0, len)
    | none => (findSplitMatch cs).map (fun p => (p.1 + 1, p.2))

/-- One step of `re.split`: emit the gap before the leftmost match, the
captured group (the whole match), and recurse after the match.  Every
match consumes at least one character, so `fuel = length` suffices. -/
def reSplitAux : Nat → List Char → List (List Char)
  | 0, cs => [cs]
  | fuel + 1, cs =>
    match findSplitMatch cs with
    | none => [cs]
    | some (g, len) =>
      cs.take g :: (cs.drop g).take len :: reSplitAux fuel (cs.drop (g + len))

/-- `TEXT_SPLIT_RE.split(text)`. -/
def textSplit (s : String) : List String :=
  (reSplitAux s.length s.toList).map String.mk

/-! ## The lxml element-tree model

An lxml node is an element (namespace-qualified tag, ordered attributes,
leading text, children, trailing text), a comment, or a processing
instruction; comments and processing instructions carry only a tail. -/

/-- Shallow embedding of an lxml `_Element` / `_Comment` /
`_ProcessingInstruction` node. -/
inductive XNode where
  | comment (tail : Option String)
  | procInst (tail : Option String)
  | elem (tag : String) (attrs : List (String × String)) (text : Option String)
      (children : List XNode) (tail : Option String)
  deriving Repr

/-- Value of `XHTML_NAMESPACE` in `container.py`. -/
def XHTML_NAMESPACE : String := "http://www.w3.org/1999/xhtml"

/-- The lxml qualified tag `"{%s}name" % XHTML_NAMESPACE`. -/
def xhtmlTag (ln : String) : String := "\x7b" ++ XHTML_NAMESPACE ++ "\x7d" ++ ln

/-- The `SKIPPED_TAGS` frozenset of `container.py`. -/
def SKIPPED_TAGS : List String :=
  ["button", "circle", "defs", "figcaption", "figure", "g", "input", "math",
   "path", "polygon", "pre", "rect", "script", "style", "svg", "use", "video"]

/-- The `SPECIAL_TAGS` frozenset of `container.py`. -/
def SPECIAL_TAGS : List String := ["img"]

/-- Tail of a node (`node.tail`). -/
def tailOf : XNode → Option String
  | .comment t => t
  | .procInst t => t
  | .elem _ _ _ _ t => t

/-- Replace the tail of a node (`node.tail = t`). -/
def setTail : XNode → Option String → XNode
  | .comment _, t => .comment t
  | .procInst _, t => .procInst t
  | .elem tg a tx ch _, t => .elem tg a tx ch t

/-- Leading text of a node (`node.text`; comments and processing
instructions are modelled without text). -/
def textOf : XNode → Option String
  | .elem _ _ tx _ _ => tx
  | _ => none

/-- Children of a node. -/
def childrenOf : XNode → List XNode
  | .elem _ _ _ ch _ => ch
  | _ => []

/-- First attribute value for a key (lxml attribute lookup). -/
def attrLookup (attrs : List (String × String)) (k : String) : Option String :=
  (attrs.find? (fun p => p.1 == k)).map (·.2)

/-! ## Tag classification

`re.search(r"^(?:\{[^\}]+\})?(\w+)$", node.tag)` strips one optional
namespace-brace prefix and accepts only a nonempty word-character tag. -/

/-- Consume `[^\}]+\}`: drop everything up to and including the first
closing brace, requiring at least one character before it. -/
def dropThroughBraceAux : List Char → Option (List Char)
  | [] => none
  | c :: cs => if c = '\x7d' then some cs else dropThroughBraceAux cs

/-- Match `\{[^\}]+\}` after the opening brace has been seen. -/
def dropThroughBrace : List Char → Option (List Char)
  | [] => none
  | c :: cs => if c = '\x7d' then none else dropThroughBraceAux cs

/-- Match `(\w+)$`. -/
def wordOnly (cs : List Char) : Option String :=
  if !cs.isEmpty && cs.all isWordChar then some (String.mk cs) else none

/-- Group 1 of `re.search(r"^(?:\{[^\}]+\})?(\w+)$", tag)`. -/
def localTagName (tag : String) : Option String :=
  match tag.toList with
  | [] => none
  | c :: cs =>
    if c = '\x7b' then
      match dropThroughBrace cs with
      | none => none
      | some rest => wordOnly rest
    else wordOnly (c :: cs)

/-- Tag classified into `SKIPPED_TAGS` by `_add_kobo_spans_to_node`. -/
def isSkippedTag (tag : String) : Bool :=
  match localTagName tag with
  | some ln => SKIPPED_TAGS.contains ln
  | none => false

/-- Tag classified into `SPECIAL_TAGS` by `_add_kobo_spans_to_node`. -/
def isSpecialTag (tag : String) : Bool :=
  match localTagName tag with
  | some ln => SPECIAL_TAGS.contains ln
  | none => false

/-! ## Paragraph counters and span generation -/

/-- The `paragraph_counter` of `KEPubContainer`: a
`defaultdict(lambda: 1)` keyed by document name. -/
abbrev Ctr := String → Nat

/-- The initial counter state: every document starts at paragraph 1. -/
def initialCtr : Ctr := fun _ => 1

/-- `self.paragraph_counter[name] += 1`. -/
def bumpCtr (name : String) (ctr : Ctr) : Ctr :=
  fun n => if n = name then ctr n + 1 else ctr n

/-- One generated tracking span as built inside
`_append_kobo_spans_from_text` (attribute order `class`, `id`). -/
def koboTextSpan (paragraph seg : Nat) (g : String) : XNode :=
  .elem (xhtmlTag "span")
    [("class", "koboSpan"),
     ("id", "kobo." ++ toString paragraph ++ "." ++ toString seg)]
    (some g) [] none

/-- The span-building loop of `_append_kobo_spans_from_text`: one span per
group, segment counter starting at `seg`. -/
def buildTextSpans (paragraph seg : Nat) : List String → List XNode
  | [] => []
  | g :: gs => koboTextSpan paragraph seg g :: buildTextSpans paragraph (seg + 1) gs

/-- `_append_kobo_spans_from_text(node, text, name)`: `none` models a
`False` return (no spans appended, caller restores the text), and
`some spans` models a `True` return with `spans` appended to `node`.
The paragraph counter is read at `paragraph`; the caller increments it. -/
def append_kobo_spans_from_text (paragraph : Nat) (text : String) : Option (List XNode) :=
  if text = "" then none
  else if pyStrip text = "" then none
  else
    let groups := (textSplit text).filter (fun g => g ≠ "")
    some (buildTextSpans paragraph 1 groups)

/-! ## The recursive span transform `_add_kobo_spans_to_node`

The Python function mutates `node` and returns it; the embedding returns
the new node together with the updated counter map.  Every recursive call
site in the source first saves and clears the child's tail
(`child.tail = None`), so the function never observes a tail on its input;
the embedding accordingly ignores the stored tail of the node it
processes (the general branch clears it via `node.clear()`, and the
wrapped node of the special branch was already tail-cleared by its
caller). -/

/-- The span wrapper built for a `SPECIAL_TAGS` node (attribute order
`id`, `class`); the wrapped node is appended whole, children unvisited. -/
def wrapSpecial (name : String) (ctr : Ctr) (node : XNode) : XNode :=
  .elem (xhtmlTag "span")
    [("id", "kobo." ++ toString (ctr name) ++ ".1"), ("class", "koboSpan")]
    none [node] none

/-- The `node.text` block of `_add_kobo_spans_to_node`: the leading text
is converted to spans and the paragraph counter advanced, or restored
verbatim when no spans were produced.  Returns the restored text, the
spans to prepend to the children, and the updated counters. -/
def textStep (name : String) (ctr : Ctr) (text : Option String) :
    Option String × List XNode × Ctr :=
  match text with
  | none => (none, [], ctr)
  | some t =>
    match append_kobo_spans_from_text (ctr name) t with
    | some spans => (none, spans, bumpCtr name ctr)
    | none => (some t, [], ctr)

/-- The `child_tail` block of `_add_kobo_spans_to_node`: the saved tail
of a just re-appended child `c` is converted to spans (advancing the
paragraph counter) or restored onto `c`. -/
def tailStep (name : String) (ctr : Ctr) (c : XNode) (childTail : Option String) :
    List XNode × Ctr :=
  match childTail with
  | none => ([c], ctr)
  | some t =>
    match append_kobo_spans_from_text (ctr name) t with
    | some spans => (c :: spans, bumpCtr name ctr)
    | none => ([setTail c (some t)], ctr)

mutual

/-- `_add_kobo_spans_to_node(node, name)`. -/
def add_kobo_spans_to_node (name : String) (ctr : Ctr) : XNode → XNode × Ctr
  | .comment _ => (.comment none, ctr)
  | .procInst _ => (.procInst none, ctr)
  | .elem tag attrs text children _ =>
    if isSkippedTag tag then
      (.elem tag attrs text children none, ctr)
    else if isSpecialTag tag then
      (wrapSpecial name ctr (.elem tag attrs text children none), ctr)
    else
      -- node.clear(); attributes restored; text converted to spans or restored
      let s := textStep name ctr text
      let (rest, ctr2) := add_kobo_spans_children name s.2.2 children
      (.elem tag attrs s.1 (s.2.1 ++ rest) none, ctr2)

/-- The child loop of `_add_kobo_spans_to_node`: each child's tail is
saved and cleared, the child is processed recursively and re-appended,
and the saved tail is handled by `tailStep`. -/
def add_kobo_spans_children (name : String) (ctr : Ctr) : List XNode → List XNode × Ctr
  | [] => ([], ctr)
  | child :: restChildren =>
    let (c, ctr1) := add_kobo_spans_to_node name ctr child
    let p := tailStep name ctr1 c (tailOf child)
    let (others, ctr2) := add_kobo_spans_children name p.2 restChildren
    (p.1 ++ others, ctr2)

end

/-! ## Document-level transforms -/

mutual

/-- Number of nodes satisfying `p` in the subtree rooted at a node,
the node itself included (the descendant-or-self axis). -/
def countNodes (p : XNode → Bool) : XNode → Nat
  | .comment t => if p (.comment t) then 1 else 0
  | .procInst t => if p (.procInst t) then 1 else 0
  | .elem tag attrs text children tl =>
    (if p (.elem tag attrs text children tl) then 1 else 0) +
      countNodesList p children

/-- Sum of `countNodes` over a list of subtrees. -/
def countNodesList (p : XNode → Bool) : List XNode → Nat
  | [] => 0
  | k :: ks => countNodes p k + countNodesList p ks

end

/-- Nodes matched by the skip test of `add_kobo_spans`:
`xhtml:span[@class="koboSpan" or starts-with(@id, "kobo.")]`. -/
def isKoboSpanElem : XNode → Bool
  | .elem tag attrs _ _ _ =>
    tag == xhtmlTag "span" &&
      (attrLookup attrs "class" == some "koboSpan" ||
        (match attrLookup attrs "id" with
         | some v => v.startsWith "kobo."
         | none => false))
  | _ => false

/-- Nodes matched by the skip test of `add_kobo_divs`:
`xhtml:div[@id="book-inner"]`. -/
def isBookInnerDiv : XNode → Bool
  | .elem tag attrs _ _ _ =>
    tag == xhtmlTag "div" && attrLookup attrs "id" == some "book-inner"
  | _ => false

/-- An `xhtml:div` element. -/
def isDivElem : XNode → Bool
  | .elem tag _ _ _ _ => tag == xhtmlTag "div"
  | _ => false

/-- An `xhtml:p` element. -/
def isPElem : XNode → Bool
  | .elem tag _ _ _ _ => tag == xhtmlTag "p"
  | _ => false

/-- An `xhtml:body` element (the `./xhtml:body` child lookup). -/
def isBodyElem : XNode → Bool
  | .elem tag _ _ _ _ => tag == xhtmlTag "body"
  | _ => false

/-- An `xhtml:head` element (the `./xhtml:head` child lookup). -/
def isHeadElem : XNode → Bool
  | .elem tag _ _ _ _ => tag == xhtmlTag "head"
  | _ => false

/-- Replace the first direct child satisfying `p` by `nk` (the in-place
mutation of the element found by an xpath child lookup). -/
def replaceFirstChild (p : XNode → Bool) (nk : XNode) : List XNode → List XNode
  | [] => []
  | k :: ks => if p k then nk :: ks else k :: replaceFirstChild p nk ks

/-- Replace the first direct `body` child of the root element. -/
def replaceBody (root newBody : XNode) : XNode :=
  match root with
  | .elem tag attrs text children tl =>
    .elem tag attrs text (replaceFirstChild isBodyElem newBody children) tl
  | n => n

/-- `add_kobo_spans(name)` on a parsed document: raises (models the
`Exception` of the skip branch) when a tracking span is already present
among the root's descendants (`.//xhtml:span[...]`), raises an
`IndexError` when there is no direct `body` child, and otherwise replaces
the body by its span-injected form. -/
def add_kobo_spans (name : String) (ctr : Ctr) (root : XNode) :
    Except String (XNode × Ctr) :=
  if countNodesList isKoboSpanElem (childrenOf root) > 0 then
    .error ("Skipping file " ++ name ++ ", Kobo <span> tags present")
  else
    match (childrenOf root).find? isBodyElem with
    | none => .error "list index out of range"
    | some body =>
      let (newBody, ctr2) := add_kobo_spans_to_node name ctr body
      .ok (replaceBody root newBody, ctr2)

/-- The effect of one `add_kobo_spans` worker task on its document and
the shared counter map: a raise leaves both untouched (the exception
propagates out of the thread before `replace` is reached). -/
def run_add_kobo_spans (name : String) (ctr : Ctr) (root : XNode) : XNode × Ctr :=
  match add_kobo_spans name ctr root with
  | .ok (r, c) => (r, c)
  | .error _ => (root, ctr)

/-- `__add_kobo_divs_to_body(root)`: the body is cleared (text, children
and tail), its attributes restored, and its original text and children
are moved into `div#book-inner` nested inside `div#book-columns`. -/
def add_kobo_divs_to_body : XNode → XNode
  | .elem tag attrs text children _ =>
    let innerDiv : XNode := .elem (xhtmlTag "div") [("id", "book-inner")] text children none
    let outerDiv : XNode := .elem (xhtmlTag "div") [("id", "book-columns")] none [innerDiv] none
    .elem tag attrs none [outerDiv] none
  | n => n

/-- The successful path of `add_kobo_divs`: wrap the first `body` child. -/
def apply_kobo_divs (root : XNode) : XNode :=
  match (childrenOf root).find? isBodyElem with
  | some body => replaceBody root (add_kobo_divs_to_body body)
  | none => root

/-- `add_kobo_divs(name)` on a parsed document: raises when a
`div#book-inner` is present anywhere (`//xhtml:div[@id="book-inner"]`),
raises when the document has more `div` than `p` elements, raises an
`IndexError` when there is no direct `body` child, and otherwise wraps
the body content in the two tracking divs. -/
def add_kobo_divs (name : String) (root : XNode) : Except String XNode :=
  if countNodes isBookInnerDiv root > 0 then
    .error ("Skipping file " ++ name ++ ", Kobo <div> tags present")
  else if countNodes isDivElem root > countNodes isPElem root then
    .error ("Skipping file " ++ name ++ " (div/p count heuristic)")
  else
    match (childrenOf root).find? isBodyElem with
    | none => .error "list index out of range"
    | some body => .ok (replaceBody root (add_kobo_divs_to_body body))

/-- The effect of one `add_kobo_divs` worker task on its document: a
raise leaves the document untouched. -/
def run_add_kobo_divs (name : String) (root : XNode) : XNode :=
  match add_kobo_divs name root with
  | .ok r => r
  | .error _ => root

/-! ## Content-file reference injection (`__add_content_file_reference_impl`) -/

/-- Python exceptions raised by the reference-injection path. -/
inductive PyError where
  | indexError (msg : String)
  | exception (msg : String)
  deriving Repr, DecidableEq

/-- `CSS_MIMETYPE = guess_type("a.css")[0]`. -/
def CSS_MIMETYPE : String := "text/css"

/-- `JS_MIMETYPE = guess_type("a.js")[0]` under calibre. -/
def JS_MIMETYPE : String := "application/x-javascript"

/-- `fix_tail(item)` for an `item` just appended as the last child of
`head`: the first child takes the parent's text as its tail; otherwise
the item takes the previous sibling's tail and, being the last child,
the previous sibling takes the parent's text. -/
def setLastTail : List XNode → Option String → List XNode
  | [], _ => []
  | [k], t => [setTail k t]
  | k :: ks, t => k :: setLastTail ks t

/-- Tail of the last node of a list, `none` for an empty list. -/
def lastTail (ks : List XNode) : Option String :=
  match ks.getLast? with
  | some k => tailOf k
  | none => none

/-- Append `item` to `head` followed by `fix_tail(item)` (the CSS path). -/
def appendWithFixTail (head item : XNode) : XNode :=
  match head with
  | .elem tag attrs text children tl =>
    match children with
    | [] => .elem tag attrs text [setTail item text] tl
    | _ =>
      .elem tag attrs text
        (setLastTail children text ++ [setTail item (lastTail children)]) tl
  | n => n

/-- Plain `head.append(item)` (the JavaScript path). -/
def appendPlain (head item : XNode) : XNode :=
  match head with
  | .elem tag attrs text children tl => .elem tag attrs text (children ++ [item]) tl
  | n => n

/-- Replace the first direct `head` child of the root element. -/
def replaceHead (root newHead : XNode) : XNode :=
  match root with
  | .elem tag attrs text children tl =>
    .elem tag attrs text (replaceFirstChild isHeadElem newHead children) tl
  | n => n

/-- `__add_content_file_reference_impl(infile, name)` on one parsed
content document.  `mime` is `self.mime_map[name]` of the referenced
file and `href` the relative path computed by `os.path.relpath` (passed
in, since path arithmetic is host-environment behaviour).  The result
carries the possibly-updated document and whether `self.dirty` was
called.  The source guards the xpath result with `if head is None:`, but
an lxml xpath node-set query returns a list, never `None`, so that guard
cannot fire and an absent head surfaces as an `IndexError` from
`head[0]`. -/
def add_content_file_reference_impl (mime href : String) (root : XNode) :
    Except PyError (XNode × Bool) :=
  let headQuery : Option (List XNode) := some ((childrenOf root).filter isHeadElem)
  match headQuery with
  | none => .error (.exception "Could not find a <head> element")  -- dead branch
  | some headList =>
    match headList with
    | [] => .error (.indexError "list index out of range")  -- head = head[0]
    | head :: _ =>
      if mime == CSS_MIMETYPE then
        let linkElem : XNode :=
          .elem (xhtmlTag "link") [("rel", "stylesheet"), ("href", href)] none [] none
        .ok (replaceHead root (appendWithFixTail head linkElem), true)
      else if mime == JS_MIMETYPE then
        let scriptElem : XNode :=
          .elem (xhtmlTag "script") [("type", "text/javascript"), ("src", href)] none [] none
        .ok (replaceHead root (appendPlain head scriptElem), true)
      else
        -- elem = None: nothing appended, nothing dirtied
        .ok (root, false)

/-! ## The textual pipeline of `forced_cleanup`

`forced_cleanup` works on the raw decoded text of a document: it
rewrites a non-UTF-8 encoding declaration to UTF-8, collapses explicit
`<meta …>…</meta>` / `<link …>…</link>` pairs to self-closing form
(`SELF_CLOSING_RE`), forces self-closed `<script …/>` / `<p …/>` open
(`FORCE_OPEN_TAG_RE`), and strips U+FFFD replacement characters, before
re-parsing.  Each regex substitution is hand-compiled below with the
exact leftmost-match backtracking semantics of its pattern. -/

/-- Literal list prefix test. -/
def startsWithChars (p cs : List Char) : Bool := p.isPrefixOf cs

/-- Index of the first occurrence of the literal `close` reachable by a
lazy `.*?` (which cannot cross a newline). -/
def findCloseIdx (close : List Char) : List Char → Option Nat
  | [] => none
  | c :: cs =>
    if startsWithChars close (c :: cs) then some 0
    else if c = '\n' then none
    else (findCloseIdx close cs).map (· + 1)

/-- Match of `SELF_CLOSING_RE = <(meta|link) ([^>]+)>.*?</\1>` at the
head of `cs`: returns the tag, the attribute text (group 2) and the
total match length.  Group 2 is the maximal nonempty run of non-`>`
characters (greedy), forced to end at the first `>`; the lazy `.*?`
then finds the nearest matching close tag on the same line. -/
def matchSelfClosing (cs : List Char) : Option (String × String × Nat) :=
  let tagM : Option (String × List Char) :=
    if startsWithChars "<meta ".toList cs then some ("meta", cs.drop 6)
    else if startsWithChars "<link ".toList cs then some ("link", cs.drop 6)
    else none
  match tagM with
  | none => none
  | some (tag, rest) =>
    let g2 := rest.takeWhile (fun c => c ≠ '>')
    if g2.isEmpty then none
    else
      match rest.drop g2.length with
      | [] => none
      | _gt :: afterGt =>
        let close := ("</" ++ tag ++ ">").toList
        match findCloseIdx close afterGt with
        | none => none
        | some m =>
          some (tag, String.mk g2, 6 + g2.length + 1 + m + close.length)

/-- `SELF_CLOSING_RE.sub(r"<\1 \2 />", ·)`: scan left to right, replace
each non-overlapping match, and continue after the replaced text. -/
def selfClosingSubAux : Nat → List Char → List Char
  | 0, cs => cs
  | fuel + 1, cs =>
    match cs with
    | [] => []
    | c :: rest =>
      match matchSelfClosing cs with
      | some (tag, g2, len) =>
        ("<" ++ tag ++ " " ++ g2 ++ " />").toList ++ selfClosingSubAux fuel (cs.drop len)
      | none => c :: selfClosingSubAux fuel rest

/-- The self-closing repair of `forced_cleanup`. -/
def selfClosingSub (s : String) : String :=
  String.mk (selfClosingSubAux s.length s.toList)

/-- Backtracking search for `([^<]+) ?/>` after the opening tag: group 2
is greedy, so try lengths from the maximal non-`<` run downwards; at each
length the optional space is preferred.  Returns group 2 length and the
length of the consumed ` ?/>` suffix. -/
def tryForceLens (rest : List Char) : Nat → Option (Nat × Nat)
  | 0 => none
  | l + 1 =>
    let rem := rest.drop (l + 1)
    if startsWithChars " />".toList rem then some (l + 1, 3)
    else if startsWithChars "/>".toList rem then some (l + 1, 2)
    else tryForceLens rest l

/-- Match of `FORCE_OPEN_TAG_RE = <(script|p) ([^<]+) ?/>` at the head
of `cs`: tag, group 2, total length. -/
def matchForceOpen (cs : List Char) : Option (String × String × Nat) :=
  let tagM : Option (String × Nat) :=
    if startsWithChars "<script ".toList cs then some ("script", 8)
    else if startsWithChars "<p ".toList cs then some ("p", 3)
    else none
  match tagM with
  | none => none
  | some (tag, pre) =>
    let rest := cs.drop pre
    let run := rest.takeWhile (fun c => c ≠ '<')
    match tryForceLens rest run.length with
    | none => none
    | some (l, suf) => some (tag, String.mk (rest.take l), pre + l + suf)

/-- `FORCE_OPEN_TAG_RE.sub(r"<\1 \2></\1>", ·)`. -/
def forceOpenSubAux : Nat → List Char → List Char
  | 0, cs => cs
  | fuel + 1, cs =>
    match cs with
    | [] => []
    | c :: rest =>
      match matchForceOpen cs with
      | some (tag, g2, len) =>
        ("<" ++ tag ++ " " ++ g2 ++ "></" ++ tag ++ ">").toList ++
          forceOpenSubAux fuel (cs.drop len)
      | none => c :: forceOpenSubAux fuel rest

/-- The force-open repair of `forced_cleanup`. -/
def forceOpenSub (s : String) : String :=
  String.mk (forceOpenSubAux s.length s.toList)

/-- `html.replace("�", "")`: strip Unicode replacement characters. -/
def stripReplacementChars (s : String) : String :=
  String.mk (s.toList.filter (fun c => c ≠ '�'))

/-- Try the greedy `.+encoding="([^"]+)"` tail of `ENCODING_RE` at
offsets `q` descending (the greedy `.+` prefers the rightmost literal
on the line). -/
def encTryQ (rest : List Char) : Nat → Option String
  | 0 => none
  | q + 1 =>
    if startsWithChars "encoding=\"".toList (rest.drop (q + 1)) then
      let g := (rest.drop (q + 1 + 10)).takeWhile (fun c => c ≠ '"')
      if !g.isEmpty && startsWithChars ['"'] (rest.drop (q + 1 + 10 + g.length)) then
        some (String.mk g)
      else encTryQ rest q
    else encTryQ rest q

/-- Match of `ENCODING_RE = ^\<\?.+encoding="([^"]+)"` (MULTILINE) at a
single line start: `<?`, then at least one non-newline character, then
the rightmost `encoding="…"` group on the line. -/
def encDeclAt (cs : List Char) : Option String :=
  if startsWithChars "<?".toList cs then
    let rest := cs.drop 2
    encTryQ rest (rest.takeWhile (fun c => c ≠ '\n')).length
  else none

/-- Drop characters up to and including the first newline. -/
def dropLine : List Char → Option (List Char)
  | [] => none
  | c :: cs => if c = '\n' then some cs else dropLine cs

/-- `ENCODING_RE.search(str(html[:75]))`: try each line start in order. -/
def findEncodingDecl : Nat → List Char → Option String
  | _, [] => none
  | 0, cs => encDeclAt cs
  | fuel + 1, cs =>
    match encDeclAt cs with
    | some g => some g
    | none =>
      match dropLine cs with
      | none => none
      | some rest => findEncodingDecl fuel rest

/-- Literal first-occurrence replacement,
`re.sub(enc, "UTF-8", html, 1)` for a metacharacter-free `enc`. -/
def replaceFirstOcc : Nat → List Char → List Char → List Char → List Char
  | 0, cs, _, _ => cs
  | _ + 1, [], _, _ => []
  | fuel + 1, c :: cs, pat, repl =>
    if startsWithChars pat (c :: cs) then repl ++ (c :: cs).drop pat.length
    else c :: replaceFirstOcc fuel cs pat repl

/-- Python's `str.upper()` for the ASCII encoding names in play. -/
def pyUpper (s : String) : String := String.mk (s.toList.map Char.toUpper)

/-- The encoding-declaration rewrite of `forced_cleanup`: when the first
75 characters declare an encoding other than UTF-8 (case-insensitively),
the first occurrence of that encoding name in the document is replaced
by `UTF-8`. -/
def encodingRewrite (s : String) : String :=
  match findEncodingDecl 75 (s.toList.take 75) with
  | none => s
  | some enc =>
    if pyUpper enc != "UTF-8" then
      String.mk (replaceFirstOcc s.length s.toList enc.toList "UTF-8".toList)
    else s

/-- The complete textual pipeline of `forced_cleanup(name)` (the
subsequent `parse_xhtml`/serialize round trip belongs to calibre). -/
def forced_cleanup_text (s : String) : String :=
  stripReplacementChars (forceOpenSub (selfClosingSub (encodingRewrite s)))

/-! ## Orchestration order (`convert` / `modify_epub`) and concurrency -/

/-- One per-document transform invocation of the span/div step. -/
inductive ConvertStep where
  | spanInjection (name : String)
  | divWrapping (name : String)
  deriving Repr, DecidableEq

/-- Invocation order of `KEPubContainer.convert` (and equally of
`modify_epub`): `add_kobo_spans` is fanned out over every content
document and joined, then `add_kobo_divs` is fanned out over every
content document. -/
def convert_trace (names : List String) : List ConvertStep :=
  names.map ConvertStep.spanInjection ++ names.map ConvertStep.divWrapping

/-- Sequential left-to-right run of the span-injection transform over a
list of named documents sharing one counter map (the order the
Coordinator would produce with a pool of size one). -/
def runDocsSeq (ctr : Ctr) : List (String × XNode) → Ctr × List (String × XNode)
  | [] => (ctr, [])
  | (n, d) :: rest =>
    let (r, c1) := run_add_kobo_spans n ctr d
    let (c2, others) := runDocsSeq c1 rest
    (c2, (n, r) :: others)

/-! ## Example documents used by witnesses and counterexamples -/

/-- A content document with a head, a body, one paragraph and one image. -/
def exDoc : XNode :=
  .elem (xhtmlTag "html") [] none
    [.elem (xhtmlTag "head") [] none [] none,
     .elem (xhtmlTag "body") [] (some "\n")
       [.elem (xhtmlTag "p") [] (some "Hi. Bye.") [] (some "\n")] (some "\n")]
    none

/-- A content document whose body already holds a tracking span. -/
def exSpannedDoc : XNode :=
  .elem (xhtmlTag "html") [] none
    [.elem (xhtmlTag "head") [] none [] none,
     .elem (xhtmlTag "body") [] none
       [.elem (xhtmlTag "span") [("class", "koboSpan"), ("id", "kobo.1.1")]
          (some "Hi.") [] none] none]
    none

/-- A div-based content document: two divs, one paragraph. -/
def exDivHeavyDoc : XNode :=
  .elem (xhtmlTag "html") [] none
    [.elem (xhtmlTag "head") [] none [] none,
     .elem (xhtmlTag "body") [] none
       [.elem (xhtmlTag "div") [] none
          [.elem (xhtmlTag "div") [] none
             [.elem (xhtmlTag "p") [] (some "Hi.") [] none] none] none] none]
    none

/-- A content document with no head element. -/
def exHeadlessDoc : XNode :=
  .elem (xhtmlTag "html") [] none
    [.elem (xhtmlTag "body") [] none
       [.elem (xhtmlTag "p") [] (some "Hi.") [] none] none]
    none

/-- A second small content document, for multi-document runs. -/
def exDocB : XNode :=
  .elem (xhtmlTag "html") [] none
    [.elem (xhtmlTag "body") [] none
       [.elem (xhtmlTag "p") [] (some "One. Two. Three.") [] none] none]
    none

/-! ## Supporting lemmas -/

theorem dropWhile_of_all {p : Char → Bool} {cs : List Char}
    (h : cs.all p = true) : cs.dropWhile p = [] := by
  induction cs with
  | nil => rfl
  | cons c cs ih =>
    simp only [List.all_cons, Bool.and_eq_true] at h
    simp [List.dropWhile, h.1, ih h.2]

theorem pyStrip_of_all_space {t : String}
    (h : t.toList.all isPythonSpace = true) : pyStrip t = "" := by
  unfold pyStrip stripChars
  rw [dropWhile_of_all h]
  rfl

theorem append_spans_of_all_space (paragraph : Nat) {t : String}
    (h : t.toList.all isPythonSpace = true) :
    append_kobo_spans_from_text paragraph t = none := by
  unfold append_kobo_spans_from_text
  by_cases h0 : t = ""
  · simp [h0]
  · simp [h0, pyStrip_of_all_space h]

theorem filter_idem (p : Char → Bool) (cs : List Char) :
    (cs.filter p).filter p = cs.filter p := by
  induction cs with
  | nil => rfl
  | cons c cs ih =>
    by_cases hc : p c <;> simp [List.filter, hc, ih]

theorem stripReplacementChars_idem (t : String) :
    stripReplacementChars (stripReplacementChars t) = stripReplacementChars t := by
  unfold stripReplacementChars
  show String.mk (List.filter _ (List.filter _ t.toList)) = _
  rw [filter_idem]

/-! ### Counter locality: the span transform reads and writes only the
counter entry of the document it is processing. -/

theorem bumpCtr_other {name n' : String} (h : n' ≠ name) (ctr : Ctr) :
    bumpCtr name ctr n' = ctr n' := by
  simp [bumpCtr, h]

theorem bumpCtr_self (name : String) (ctr : Ctr) :
    bumpCtr name ctr name = ctr name + 1 := by
  simp [bumpCtr]

theorem textStep_frame {name n' : String} (h : n' ≠ name) (ctr : Ctr)
    (tx : Option String) : (textStep name ctr tx).2.2 n' = ctr n' := by
  unfold textStep
  cases tx with
  | none => rfl
  | some t =>
    cases hA : append_kobo_spans_from_text (ctr name) t <;>
      simp [hA, bumpCtr_other h]

theorem textStep_agree {name : String} {ctr ctr' : Ctr}
    (h : ctr name = ctr' name) (tx : Option String) :
    (textStep name ctr tx).1 = (textStep name ctr' tx).1 ∧
    (textStep name ctr tx).2.1 = (textStep name ctr' tx).2.1 ∧
    (textStep name ctr tx).2.2 name = (textStep name ctr' tx).2.2 name := by
  unfold textStep
  cases tx with
  | none => exact ⟨rfl, rfl, h⟩
  | some t =>
    rw [h]
    cases hA : append_kobo_spans_from_text (ctr' name) t <;>
      simp [hA, bumpCtr_self, h]

theorem tailStep_frame {name n' : String} (h : n' ≠ name) (ctr : Ctr)
    (c : XNode) (tl : Option String) : (tailStep name ctr c tl).2 n' = ctr n' := by
  unfold tailStep
  cases tl with
  | none => rfl
  | some t =>
    cases hA : append_kobo_spans_from_text (ctr name) t <;>
      simp [hA, bumpCtr_other h]

theorem tailStep_agree {name : String} {ctr ctr' : Ctr}
    (h : ctr name = ctr' name) (c : XNode) (tl : Option String) :
    (tailStep name ctr c tl).1 = (tailStep name ctr' c tl).1 ∧
    (tailStep name ctr c tl).2 name = (tailStep name ctr' c tl).2 name := by
  unfold tailStep
  cases tl with
  | none => exact ⟨rfl, h⟩
  | some t =>
    rw [h]
    cases hA : append_kobo_spans_from_text (ctr' name) t <;>
      simp [hA, bumpCtr_self, h]

theorem add_spans_elem_general (name : String) (ctr : Ctr) (tag : String)
    (attrs : List (String × String)) (text : Option String)
    (children : List XNode) (tl : Option String)
    (h1 : isSkippedTag tag = false) (h2 : isSpecialTag tag = false) :
    add_kobo_spans_to_node name ctr (.elem tag attrs text children tl) =
      (.elem tag attrs (textStep name ctr text).1
         ((textStep name ctr text).2.1 ++
           (add_kobo_spans_children name (textStep name ctr text).2.2 children).1)
         none,
       (add_kobo_spans_children name (textStep name ctr text).2.2 children).2) := by
  simp only [add_kobo_spans_to_node, h1, h2, Bool.false_eq_true, if_false]

theorem add_spans_children_cons (name : String) (ctr : Ctr) (k : XNode)
    (ks : List XNode) :
    add_kobo_spans_children name ctr (k :: ks) =
      ((tailStep name (add_kobo_spans_to_node name ctr k).2
          (add_kobo_spans_to_node name ctr k).1 (tailOf k)).1 ++
         (add_kobo_spans_children name
           (tailStep name (add_kobo_spans_to_node name ctr k).2
             (add_kobo_spans_to_node name ctr k).1 (tailOf k)).2 ks).1,
       (add_kobo_spans_children name
         (tailStep name (add_kobo_spans_to_node name ctr k).2
           (add_kobo_spans_to_node name ctr k).1 (tailOf k)).2 ks).2) := by
  simp only [add_kobo_spans_children]

mutual

/-- Processing a node for document `name` never writes any other
document's paragraph counter. -/
theorem node_ctr_frame (name n' : String) (h : n' ≠ name) :
    (node : XNode) → (ctr : Ctr) →
      (add_kobo_spans_to_node name ctr node).2 n' = ctr n'
  | .comment _, ctr => rfl
  | .procInst _, ctr => rfl
  | .elem tag attrs text children tl, ctr => by
    by_cases h1 : isSkippedTag tag = true
    · simp [add_kobo_spans_to_node, h1]
    · by_cases h2 : isSpecialTag tag = true
      · simp [add_kobo_spans_to_node, h1, h2]
      · rw [add_spans_elem_general name ctr tag attrs text children tl
          (by simpa using h1) (by simpa using h2)]
        exact (children_ctr_frame name n' h children _).trans
          (textStep_frame h ctr text)

/-- Processing a child list for document `name` never writes any other
document's paragraph counter. -/
theorem children_ctr_frame (name n' : String) (h : n' ≠ name) :
    (kids : List XNode) → (ctr : Ctr) →
      (add_kobo_spans_children name ctr kids).2 n' = ctr n'
  | [], ctr => rfl
  | k :: ks, ctr => by
    rw [add_spans_children_cons]
    exact (children_ctr_frame name n' h ks _).trans
      ((tailStep_frame h _ _ _).trans (node_ctr_frame name n' h k ctr))

end

mutual

/-- Processing a node for document `name` reads no counter entry other
than that of `name`: two counter maps agreeing at `name` produce the
same node and agree at `name` afterwards. -/
theorem node_ctr_agree (name : String) :
    (node : XNode) → (ctr ctr' : Ctr) → ctr name = ctr' name →
      (add_kobo_spans_to_node name ctr node).1 =
        (add_kobo_spans_to_node name ctr' node).1 ∧
      (add_kobo_spans_to_node name ctr node).2 name =
        (add_kobo_spans_to_node name ctr' node).2 name
  | .comment _, ctr, ctr', h => ⟨rfl, h⟩
  | .procInst _, ctr, ctr', h => ⟨rfl, h⟩
  | .elem tag attrs text children tl, ctr, ctr', h => by
    by_cases h1 : isSkippedTag tag = true
    · simp [add_kobo_spans_to_node, h1, h]
    · by_cases h2 : isSpecialTag tag = true
      · simp [add_kobo_spans_to_node, h1, h2, wrapSpecial, h]
      · rw [add_spans_elem_general name ctr tag attrs text children tl
            (by simpa using h1) (by simpa using h2),
          add_spans_elem_general name ctr' tag attrs text children tl
            (by simpa using h1) (by simpa using h2)]
        obtain ⟨e1, e2, e3⟩ := textStep_agree h text
        obtain ⟨c1, c2⟩ := children_ctr_agree name children _ _ e3
        exact ⟨by rw [e1, e2, c1], c2⟩

/-- Child-list version of `node_ctr_agree`. -/
theorem children_ctr_agree (name : String) :
    (kids : List XNode) → (ctr ctr' : Ctr) → ctr name = ctr' name →
      (add_kobo_spans_children name ctr kids).1 =
        (add_kobo_spans_children name ctr' kids).1 ∧
      (add_kobo_spans_children name ctr kids).2 name =
        (add_kobo_spans_children name ctr' kids).2 name
  | [], ctr, ctr', h => ⟨rfl, h⟩
  | k :: ks, ctr, ctr', h => by
    rw [add_spans_children_cons, add_spans_children_cons]
    obtain ⟨n1, n2⟩ := node_ctr_agree name k ctr ctr' h
    rw [← n1]
    obtain ⟨t1, t2⟩ := tailStep_agree n2 (add_kobo_spans_to_node name ctr k).1 (tailOf k)
    rw [← t1]
    obtain ⟨r1, r2⟩ := children_ctr_agree name ks _ _ t2
    exact ⟨by rw [r1], r2⟩

end

/-- One whole-document span-injection task never writes another
document's counter entry. -/
theorem run_spans_frame {name n' : String} (h : n' ≠ name) (ctr : Ctr)
    (root : XNode) : (run_add_kobo_spans name ctr root).2 n' = ctr n' := by
  unfold run_add_kobo_spans add_kobo_spans
  by_cases hskip : countNodesList isKoboSpanElem (childrenOf root) > 0
  · simp [hskip]
  · simp only [hskip, if_false]
    cases hb : (childrenOf root).find? isBodyElem with
    | none => rfl
    | some body => exact node_ctr_frame name n' h body ctr

/-- One whole-document span-injection task reads no counter entry other
than its own: agreeing counters give the same output document. -/
theorem run_spans_agree {name : String} {ctr ctr' : Ctr}
    (h : ctr name = ctr' name) (root : XNode) :
    (run_add_kobo_spans name ctr root).1 = (run_add_kobo_spans name ctr' root).1 ∧
    (run_add_kobo_spans name ctr root).2 name =
      (run_add_kobo_spans name ctr' root).2 name := by
  unfold run_add_kobo_spans add_kobo_spans
  by_cases hskip : countNodesList isKoboSpanElem (childrenOf root) > 0
  · simp [hskip, h]
  · simp only [hskip, if_false]
    cases hb : (childrenOf root).find? isBodyElem with
    | none => exact ⟨rfl, h⟩
    | some body =>
      obtain ⟨b1, b2⟩ := node_ctr_agree name body ctr ctr' h
      refine ⟨?_, b2⟩
      show replaceBody root (add_kobo_spans_to_node name ctr body).1 =
        replaceBody root (add_kobo_spans_to_node name ctr' body).1
      rw [b1]

/-- Sequential runs compute, for every document, exactly the result of
processing that document alone from the base counter map, provided the
document names are pairwise distinct and the running counter map agrees
with the base map on every name in the list. -/
theorem runDocsSeq_eq (ctr0 : Ctr) :
    (docs : List (String × XNode)) → (ctr : Ctr) →
      (∀ p ∈ docs, ctr p.1 = ctr0 p.1) → (docs.map Prod.fst).Nodup →
      (runDocsSeq ctr docs).2 =
        docs.map (fun p => (p.1, (run_add_kobo_spans p.1 ctr0 p.2).1))
  | [], ctr, _, _ => rfl
  | (n, d) :: rest, ctr, hagree, hnd => by
    simp only [runDocsSeq, List.map_cons]
    have hn : ctr n = ctr0 n := hagree (n, d) (List.mem_cons_self _ _)
    have hhead := (run_spans_agree hn d).1
    have hndRest : (rest.map Prod.fst).Nodup := (List.nodup_cons.mp hnd).2
    have hnotin : n ∉ rest.map Prod.fst := (List.nodup_cons.mp hnd).1
    have htail := runDocsSeq_eq ctr0 rest (run_add_kobo_spans n ctr d).2
      (fun p hp => by
        have hne : p.1 ≠ n := by
          intro hEq
          exact hnotin (hEq ▸ List.mem_map_of_mem Prod.fst hp)
        exact (run_spans_frame hne ctr d).trans (hagree p (List.mem_cons_of_mem _ hp)))
      hndRest
    rw [htail, hhead]

/-! ## Claim theorems -/

/-- C1: feeding the text `"Hello, World! Goodbye."` to the span-appending
step splits it into exactly two groups, and exactly two tracking spans are
appended: id `kobo.1.1` with text `"Hello, World! "` (trailing space
included) and id `kobo.1.2` with text `"Goodbye."`, both with class
`koboSpan`. -/
theorem C1_sentence_segmentation :
    (textSplit "Hello, World! Goodbye.").filter (fun g => g ≠ "") =
      ["Hello, World! ", "Goodbye."] ∧
    append_kobo_spans_from_text 1 "Hello, World! Goodbye." =
      some [.elem (xhtmlTag "span") [("class", "koboSpan"), ("id", "kobo.1.1")]
              (some "Hello, World! ") [] none,
            .elem (xhtmlTag "span") [("class", "koboSpan"), ("id", "kobo.1.2")]
              (some "Goodbye.") [] none] :=
  ⟨by decide, by rfl⟩

/-- C2: on a document already containing a tracking span (the skip test of
`add_kobo_spans`), span injection raises the skip exception and leaves the
document and the counter map untouched. -/
theorem C2_span_injection_skip (name : String) (ctr : Ctr) (root : XNode)
    (h : 0 < countNodesList isKoboSpanElem (childrenOf root)) :
    run_add_kobo_spans name ctr root = (root, ctr) ∧
    ∃ e, add_kobo_spans name ctr root = Except.error e := by
  have herr : add_kobo_spans name ctr root =
      Except.error ("Skipping file " ++ name ++ ", Kobo <span> tags present") := by
    unfold add_kobo_spans
    simp [h]
  exact ⟨by unfold run_add_kobo_spans; rw [herr], ⟨_, herr⟩⟩

/-- C2 witness: a concrete document with an existing `koboSpan` is left
byte-identical by span injection. -/
theorem C2_witness :
    run_add_kobo_spans "ch" initialCtr exSpannedDoc = (exSpannedDoc, initialCtr) ∧
    ∃ e, add_kobo_spans "ch" initialCtr exSpannedDoc = Except.error e :=
  C2_span_injection_skip "ch" initialCtr exSpannedDoc (by decide)

/-- C3 (amended): a node whose tag is in `SPECIAL_TAGS` is wrapped whole
in exactly one tracking span with id `kobo.<p>.1` for the current
paragraph index `p`, its children are not descended into, and the
paragraph counter is returned unchanged (the wrapping itself does not
advance it). -/
theorem C3_special_tag_wrap (name : String) (ctr : Ctr) (tag ln : String)
    (attrs : List (String × String)) (text : Option String)
    (children : List XNode) (tl : Option String)
    (hln : localTagName tag = some ln)
    (hmem : SPECIAL_TAGS.contains ln = true) :
    add_kobo_spans_to_node name ctr (.elem tag attrs text children tl) =
      (.elem (xhtmlTag "span")
        [("id", "kobo." ++ toString (ctr name) ++ ".1"), ("class", "koboSpan")]
        none [.elem tag attrs text children none] none, ctr) := by
  have hImg : ln = "img" := by simpa [SPECIAL_TAGS] using hmem
  subst hImg
  have hskip : isSkippedTag tag = false := by
    unfold isSkippedTag
    rw [hln]
    decide
  have hspec : isSpecialTag tag = true := by
    unfold isSpecialTag
    rw [hln]
    decide
  simp [add_kobo_spans_to_node, hskip, hspec, wrapSpecial]

/-- C3 counterexample: wrapping an `img` node does not advance the
paragraph counter (the claim asserts it advances to 2; it stays at 1;
`_add_kobo_spans_to_node` returns from the special branch without
incrementing `paragraph_counter`). -/
theorem C3_counterexample :
    ((add_kobo_spans_to_node "doc" initialCtr
        (.elem (xhtmlTag "img") [("src", "cover.png")] none [] none)).2) "doc" = 1 ∧
    ((add_kobo_spans_to_node "doc" initialCtr
        (.elem (xhtmlTag "img") [("src", "cover.png")] none [] none)).2) "doc" ≠ 2 :=
  ⟨by decide, by decide⟩

/-- C3 witness: the amended statement at a concrete `img` node. -/
theorem C3_witness :
    add_kobo_spans_to_node "book" initialCtr
        (.elem (xhtmlTag "img") [("alt", "x")] none [] none) =
      (.elem (xhtmlTag "span")
        [("id", "kobo." ++ toString (initialCtr "book") ++ ".1"), ("class", "koboSpan")]
        none [.elem (xhtmlTag "img") [("alt", "x")] none [] none] none, initialCtr) :=
  C3_special_tag_wrap "book" initialCtr (xhtmlTag "img") "img" [("alt", "x")]
    none [] none (by rfl) (by rfl)

/-- C4: a document with more `div` than `p` elements is left unchanged by
div wrapping (the heuristic skip), and a document with `div` count at most
`p` count, no `book-inner` wrapper div, and a body child gets the wrap
applied. -/
theorem C4_div_wrapping (name : String) (root : XNode) :
    (countNodes isDivElem root > countNodes isPElem root →
      run_add_kobo_divs name root = root) ∧
    (countNodes isDivElem root ≤ countNodes isPElem root →
      countNodes isBookInnerDiv root = 0 →
      ((childrenOf root).find? isBodyElem).isSome = true →
      add_kobo_divs name root = Except.ok (apply_kobo_divs root)) := by
  constructor
  · intro h
    unfold run_add_kobo_divs add_kobo_divs
    by_cases h0 : countNodes isBookInnerDiv root > 0 <;> simp [h0, h]
  · intro h1 h2 h3
    obtain ⟨b, hb⟩ := Option.isSome_iff_exists.mp h3
    have h0 : ¬ countNodes isBookInnerDiv root > 0 := by omega
    have h1' : ¬ countNodes isDivElem root > countNodes isPElem root :=
      Nat.not_lt.mpr h1
    unfold add_kobo_divs apply_kobo_divs
    simp [h0, h1', hb]

/-- C4 witness: the skip on a div-based document and the application on a
paragraph document, at concrete inputs. -/
theorem C4_witness :
    run_add_kobo_divs "a" exDivHeavyDoc = exDivHeavyDoc ∧
    add_kobo_divs "b" exDoc = Except.ok (apply_kobo_divs exDoc) :=
  ⟨(C4_div_wrapping "a" exDivHeavyDoc).1 (by decide),
   (C4_div_wrapping "b" exDoc).2 (by decide) (by decide) (by decide)⟩

/-- C5: when documents have pairwise distinct names, a shared-counter run
gives every document exactly the numbering of processing it alone from
the base counter map — so any processing order (any interleaving of the
per-document tasks, modelled as a permutation of whole-document steps)
produces the same per-document results as the sequential run; this holds
because each document's counter entry is never read or written by the
processing of any other document (`run_spans_frame`, `run_spans_agree`). -/
theorem C5_concurrent_numbering (ctr0 : Ctr)
    (docs docsPermuted : List (String × XNode))
    (hnd : (docs.map Prod.fst).Nodup) (hperm : docs.Perm docsPermuted) :
    (runDocsSeq ctr0 docs).2 =
      docs.map (fun p => (p.1, (run_add_kobo_spans p.1 ctr0 p.2).1)) ∧
    ((runDocsSeq ctr0 docs).2).Perm ((runDocsSeq ctr0 docsPermuted).2) := by
  have h1 := runDocsSeq_eq ctr0 docs ctr0 (fun p _ => rfl) hnd
  have hnd' : (docsPermuted.map Prod.fst).Nodup :=
    ((hperm.map Prod.fst).nodup_iff).mp hnd
  have h2 := runDocsSeq_eq ctr0 docsPermuted ctr0 (fun p _ => rfl) hnd'
  refine ⟨h1, ?_⟩
  rw [h1, h2]
  exact hperm.map _

/-- C5 witness: two concrete documents processed in both orders. -/
theorem C5_witness :
    (runDocsSeq initialCtr [("a", exDoc), ("b", exDocB)]).2 =
      [("a", exDoc), ("b", exDocB)].map
        (fun p => (p.1, (run_add_kobo_spans p.1 initialCtr p.2).1)) ∧
    ((runDocsSeq initialCtr [("a", exDoc), ("b", exDocB)]).2).Perm
      ((runDocsSeq initialCtr [("b", exDocB), ("a", exDoc)]).2) :=
  C5_concurrent_numbering initialCtr _ _ (by decide) (List.Perm.swap _ _ _)

/-- C6 counterexample: the self-closing repair is not idempotent, so
neither is the textual pipeline of `forced_cleanup`: on
`"<meta x></meta></meta>"` one run yields `"<meta x /></meta>"` and a
second run turns that into `"<meta x / />"`. -/
theorem C6_counterexample :
    forced_cleanup_text (forced_cleanup_text "<meta x></meta></meta>") ≠
      forced_cleanup_text "<meta x></meta></meta>" := by decide

/-- C6 (amended): the replacement-character stripping always leaves its
own output fixed, and whenever the first run's output is a fixed point of
the self-closing repair, the force-open repair and the encoding rewrite
(as it is for well-formed documents), running the `forced_cleanup` text
pipeline twice produces the same output as running it once. -/
theorem C6_cleanup_idempotent :
    (∀ s : String,
      selfClosingSub (forced_cleanup_text s) = forced_cleanup_text s →
      forceOpenSub (forced_cleanup_text s) = forced_cleanup_text s →
      encodingRewrite (forced_cleanup_text s) = forced_cleanup_text s →
      forced_cleanup_text (forced_cleanup_text s) = forced_cleanup_text s) ∧
    (∀ t : String,
      stripReplacementChars (stripReplacementChars t) = stripReplacementChars t) := by
  constructor
  · intro s hSelf hForce hEnc
    show stripReplacementChars (forceOpenSub (selfClosingSub
      (encodingRewrite (forced_cleanup_text s)))) = forced_cleanup_text s
    rw [hEnc, hSelf, hForce]
    exact stripReplacementChars_idem _
  · exact stripReplacementChars_idem

/-- C6 witness: a document with a non-UTF-8 declaration and an open/close
meta pair is repaired once and then left fixed; stripping is idempotent on
a string with a replacement character. -/
theorem C6_witness :
    forced_cleanup_text (forced_cleanup_text
        "<?xml a encoding=\"ascii\"?>\n<meta x></meta>") =
      forced_cleanup_text "<?xml a encoding=\"ascii\"?>\n<meta x></meta>" ∧
    stripReplacementChars (stripReplacementChars "a�b") =
      stripReplacementChars "a�b" :=
  ⟨C6_cleanup_idempotent.1 "<?xml a encoding=\"ascii\"?>\n<meta x></meta>"
      (by decide) (by decide) (by decide),
   C6_cleanup_idempotent.2 "a�b"⟩

/-- C7: on a content document without a head element,
`__add_content_file_reference_impl` fails with an `IndexError` from
`head[0]` — not with the explicit missing-head error, whose `is None`
guard can never fire because an lxml xpath query returns a list. -/
theorem C7_missing_head (mime href : String) (root : XNode)
    (h : ((childrenOf root).filter isHeadElem).isEmpty = true) :
    add_content_file_reference_impl mime href root =
      Except.error (PyError.indexError "list index out of range") := by
  unfold add_content_file_reference_impl
  cases hl : (childrenOf root).filter isHeadElem with
  | nil => simp only [hl]
  | cons a l => rw [hl] at h; simp at h

/-- C7 witness: a concrete headless document with a CSS reference. -/
theorem C7_witness :
    add_content_file_reference_impl "text/css" "style.css" exHeadlessDoc =
      Except.error (PyError.indexError "list index out of range") :=
  C7_missing_head "text/css" "style.css" exHeadlessDoc (by decide)

/-- C8 counterexample: in `convert` (and `modify_epub`), the span
injector runs over the documents before the div wrapper does, refuting
the claim that the div wrapper always comes first. -/
theorem C8_counterexample :
    ¬ (∀ (i j : Nat) (n : String), (convert_trace ["ch1"])[i]? =
          some (ConvertStep.spanInjection n) →
        (convert_trace ["ch1"])[j]? = some (ConvertStep.divWrapping n) →
        j < i) := by
  intro h
  have := h 0 1 "ch1" (by rfl) (by rfl)
  omega

/-- C8 (amended): in the orchestrated span/div step every span-injection
invocation on a document precedes the div-wrapping invocation on it: the
span injector is fanned out over all content documents and joined before
the div wrapper starts. -/
theorem C8_spans_before_divs (names : List String) (i j : Nat) (n : String)
    (hi : (convert_trace names)[i]? = some (ConvertStep.spanInjection n))
    (hj : (convert_trace names)[j]? = some (ConvertStep.divWrapping n)) :
    i < j := by
  unfold convert_trace at hi hj
  have hiLt : i < names.length := by
    by_contra hge
    push_neg at hge
    rw [List.getElem?_append_right (by simpa using hge), List.getElem?_map] at hi
    cases hx : names[i - (names.map ConvertStep.spanInjection).length]? with
    | none => rw [hx] at hi; simp at hi
    | some m => rw [hx] at hi; simp at hi
  have hjGe : names.length ≤ j := by
    by_contra hlt
    push_neg at hlt
    rw [List.getElem?_append_left (by simpa using hlt), List.getElem?_map] at hj
    cases hx : names[j]? with
    | none => rw [hx] at hj; simp at hj
    | some m => rw [hx] at hj; simp at hj
  omega

/-- C8 witness: with documents `a` and `b`, the span injection of `b`
(index 1) precedes the div wrapping of `b` (index 3). -/
theorem C8_witness :
    (convert_trace ["a", "b"])[1]? = some (ConvertStep.spanInjection "b") ∧
    (convert_trace ["a", "b"])[3]? = some (ConvertStep.divWrapping "b") ∧
    (1 : Nat) < 3 :=
  ⟨rfl, rfl, C8_spans_before_divs ["a", "b"] 1 3 "b" rfl rfl⟩

/-- C9: a text consisting only of whitespace produces zero tracking spans
(`_append_kobo_spans_from_text` returns false), and the caller restores
the original text verbatim onto the processed node. -/
theorem C9_whitespace_restored (name : String) (ctr : Ctr) (tag : String)
    (attrs : List (String × String)) (t : String) (children : List XNode)
    (tl : Option String)
    (hws : t.toList.all isPythonSpace = true)
    (h1 : isSkippedTag tag = false) (h2 : isSpecialTag tag = false) :
    append_kobo_spans_from_text (ctr name) t = none ∧
    textOf ((add_kobo_spans_to_node name ctr
        (.elem tag attrs (some t) children tl)).1) = some t := by
  have hnone := append_spans_of_all_space (ctr name) hws
  refine ⟨hnone, ?_⟩
  rw [add_spans_elem_general name ctr tag attrs (some t) children tl h1 h2]
  simp [textOf, textStep, hnone]

/-- C9 witness: the whitespace text `"   \n  "` on a paragraph node. -/
theorem C9_witness :
    append_kobo_spans_from_text (initialCtr "test") "   \n  " = none ∧
    textOf ((add_kobo_spans_to_node "test" initialCtr
        (.elem (xhtmlTag "p") [] (some "   \n  ") [] none)).1) =
      some "   \n  " :=
  C9_whitespace_restored "test" initialCtr (xhtmlTag "p") [] "   \n  " [] none
    (by decide) (by decide) (by decide)

/-- C10: when the referenced file's MIME type is neither `text/css` nor
`application/x-javascript`, the reference-injection pass leaves a content
document with a head element completely unchanged, marks it not dirty,
and raises no error. -/
theorem C10_unsupported_mime (mime href : String) (root : XNode)
    (h1 : (mime == CSS_MIMETYPE) = false) (h2 : (mime == JS_MIMETYPE) = false)
    (h3 : ((childrenOf root).filter isHeadElem).isEmpty = false) :
    add_content_file_reference_impl mime href root = Except.ok (root, false) := by
  unfold add_content_file_reference_impl
  cases hl : (childrenOf root).filter isHeadElem with
  | nil => rw [hl] at h3; simp at h3
  | cons a l => simp only [hl, h1, h2, Bool.false_eq_true, if_false]

/-- C10 witness: an image MIME type on a concrete headed document. -/
theorem C10_witness :
    add_content_file_reference_impl "image/png" "cover.png" exDoc =
      Except.ok (exDoc, false) :=
  C10_unsupported_mime "image/png" "cover.png" exDoc
    (by decide) (by decide) (by decide)

end Kepub
